import Mathlib

/-!
A shallow embedding of the case-matching and feedback-resolution core of the
BaseEvalutionFunctionLayer repository (src/tools/commands.py and src/handler.py),
together with proofs about its behaviour.

JSON values are modelled by the inductive `Json`; Python dicts by association
lists (`Dict`) with Python's update-in-place semantics; Python exceptions by
`PyExc`; and the pluggable evaluation function by `EvalFn`, a function that
either returns a result dict or raises.

Request parsing and JSON-schema validation are external collaborators (spec
section 1) and are not modelled: the embedded commands take the already
parsed and validated `(response, answer, params)` triple, and `params.cases`
is taken in its schema shape, an array of case objects.
-/

/-- The apostrophe character, as a one-character string (several of the
messages produced by the handler contain one). -/
def apos : String := String.singleton (Char.ofNat 39)

/-- A JSON value, as passed around by the Python code. -/
inductive Json where
  | null : Json
  | bool : Bool → Json
  | num : Int → Json
  | str : String → Json
  | arr : List Json → Json
  | obj : List (String × Json) → Json

mutual

/-- Structural equality test on JSON values (Python `==` on the values the
handler manipulates). -/
def jsonBeq : Json → Json → Bool
  | .null, .null => true
  | .bool a, .bool b => a == b
  | .num a, .num b => a == b
  | .str a, .str b => a == b
  | .arr xs, .arr ys => jsonBeqList xs ys
  | .obj xs, .obj ys => jsonBeqObj xs ys
  | _, _ => false

/-- Elementwise `jsonBeq` on lists. -/
def jsonBeqList : List Json → List Json → Bool
  | [], [] => true
  | x :: xs, y :: ys => jsonBeq x y && jsonBeqList xs ys
  | _, _ => false

/-- Elementwise `jsonBeq` on key-value lists. -/
def jsonBeqObj : List (String × Json) → List (String × Json) → Bool
  | [], [] => true
  | (k, x) :: xs, (k', y) :: ys => k == k' && jsonBeq x y && jsonBeqObj xs ys
  | _, _ => false

end

/-- A Python dict with string keys, as an association list (insertion order,
unique keys maintained by `dictSet`). -/
abbrev Dict := List (String × Json)

/-- `d[k]` lookup returning the first binding for `k`. -/
def dictGet : Dict → String → Option Json
  | [], _ => none
  | (k', v) :: rest, k => if k' = k then some v else dictGet rest k

/-- `d.get(k, dflt)`. -/
def dictGetD (d : Dict) (k : String) (dflt : Json) : Json :=
  (dictGet d k).getD dflt

/-- `k in d`. -/
def dictContains (d : Dict) (k : String) : Bool :=
  (dictGet d k).isSome

/-- `d[k] = v`: replace the binding in place if the key exists, else append. -/
def dictSet : Dict → String → Json → Dict
  | [], k, v => [(k, v)]
  | (k', v') :: rest, k, v =>
      if k' = k then (k, v) :: rest else (k', v') :: dictSet rest k v

/-- `{**d1, **d2}`: start from `d1` and set each binding of `d2` in order. -/
def dictMerge (d1 d2 : Dict) : Dict :=
  d2.foldl (fun acc kv => dictSet acc kv.1 kv.2) d1

/-- Python truthiness of a JSON value. -/
def truthy : Json → Bool
  | .null => false
  | .bool b => b
  | .num n => n != 0
  | .str s => s.length != 0
  | .arr xs => !xs.isEmpty
  | .obj fs => !fs.isEmpty

/-- A Python exception, as raised and caught by the handler code.
`evaluationException` is the structured `EvaluationException` carrying an
`error_dict`; the other constructors are ordinary exceptions caught by the
bare `except Exception` clauses. -/
inductive PyExc where
  | evaluationException (errorDict : Dict)
  | keyError (key : String)
  | valueError (msg : String)
  | typeError (msg : String)
  | indexError (msg : String)
  | attributeError (msg : String)
  | other (strForm reprForm : String)

/-- Whether an exception is the structured `EvaluationException` (caught by
the dedicated `except EvaluationException` clause before `except Exception`). -/
def PyExc.isEvalExc : PyExc → Bool
  | .evaluationException _ => true
  | _ => false

/-- `str(e)` for the exceptions above; `str(KeyError(k))` is `repr(k)`. -/
def pyExcStr : PyExc → String
  | .evaluationException _ => ""
  | .keyError k => apos ++ k ++ apos
  | .valueError m => m
  | .typeError m => m
  | .indexError m => m
  | .attributeError m => m
  | .other s _ => s

/-- `repr(e)` for the exceptions above. -/
def pyExcRepr : PyExc → String
  | .evaluationException _ => "EvaluationException()"
  | .keyError k => "KeyError(" ++ apos ++ k ++ apos ++ ")"
  | .valueError m => "ValueError(" ++ apos ++ m ++ apos ++ ")"
  | .typeError m => "TypeError(" ++ apos ++ m ++ apos ++ ")"
  | .indexError m => "IndexError(" ++ apos ++ m ++ apos ++ ")"
  | .attributeError m => "AttributeError(" ++ apos ++ m ++ apos ++ ")"
  | .other _ r => r

/-- `str(e) if str(e) != "" else repr(e)`, the detail string used when an
unstructured exception is converted into a warning. -/
def unstructuredDetail (e : PyExc) : String :=
  if pyExcStr e != "" then pyExcStr e else pyExcRepr e

/-- The digits of a decimal literal, as a number; `none` when some character
is not a digit or the literal is empty. -/
def decDigits? : List Char → Option Nat
  | [] => none
  | cs => cs.foldl
      (fun acc c => match acc with
        | none => none
        | some n => if c.isDigit then some (n * 10 + (c.toNat - 48)) else none)
      (some 0)

/-- `int(s)` on a string: an optional sign followed by decimal digits;
`none` models the `ValueError` Python raises on anything else. -/
def pyStrToInt? (s : String) : Option Int :=
  match s.toList with
  | '-' :: rest => (decDigits? rest).map (fun n => -(n : Int))
  | '+' :: rest => (decDigits? rest).map (fun n => (n : Int))
  | cs => (decDigits? cs).map (fun n => (n : Int))

/-- `int(v)` on a JSON value: numbers and booleans convert; strings are
parsed as decimal literals (`ValueError` otherwise); anything else is a
`TypeError`. -/
def pyInt : Json → Except PyExc Int
  | .num n => .ok n
  | .bool b => .ok (if b then 1 else 0)
  | .str s =>
      match pyStrToInt? s with
      | some n => .ok n
      | none => .error (.valueError ("invalid literal for int() with base 10: " ++ apos ++ s ++ apos))
  | _ => .error (.typeError "int() argument must be a string or a number")

/-- `len(v)` on a JSON value; raises `TypeError` on unsized values. -/
def pyLen : Json → Except PyExc Nat
  | .str s => .ok s.length
  | .arr xs => .ok xs.length
  | .obj fs => .ok fs.length
  | _ => .error (.typeError "object has no len()")

/-- `{**params, **caseParams}` where `caseParams` is a JSON value: raises
`TypeError` when it is not a mapping. -/
def pyMerge (params : Dict) (caseParams : Json) : Except PyExc Dict :=
  match caseParams with
  | .obj fs => .ok (dictMerge params fs)
  | _ => .error (.typeError "argument after ** must be a mapping")

/-- View a JSON array of objects as a list of dicts; raises on any other
shape. `params.cases` has this shape after schema validation (out of scope
per spec section 1). -/
def asDicts : Json → Except PyExc (List Dict)
  | .arr xs =>
      xs.foldr
        (fun x acc => match x, acc with
          | .obj fs, .ok ds => .ok (fs :: ds)
          | _, .ok _ => .error (.typeError "case is not a mapping")
          | _, .error e => .error e)
        (.ok [])
  | _ => .error (.typeError "cases is not an array")

/-- The pluggable Evaluation Capability: `(response, answer, params)` to a
result dict, or an exception. -/
abbrev EvalFn := Json → Json → Dict → Except PyExc Dict

/-- `"sep".join(parts)`: raises `TypeError` when some part is not a string. -/
def strJoin (sep : String) (parts : List Json) : Except PyExc String := do
  let strs ← parts.foldrM
    (fun p acc => match p with
      | Json.str s => pure (s :: acc)
      | _ => Except.error (PyExc.typeError "sequence item: expected str instance"))
    []
  pure (String.intercalate sep strs)

namespace Commands

/-! Embedding of `src/tools/commands.py`. `evaluate` is embedded from the
point where the body has been parsed and validated (`parse.body` and
`validate.body` are external collaborators, out of scope per spec section 1)
and the evaluation function has been resolved (its absence raises before any
of the logic modelled here). -/

/-- `CaseResult` from `src/tools/commands.py`: the per-case outcome, with the
source defaults `is_correct=False`, `feedback=""`, `warning=None`.
`is_correct` and `feedback` are JSON values, as in the source, where they are
taken from the evaluation function output without coercion. -/
structure CaseResult where
  is_correct : Json := Json.bool false
  feedback : Json := Json.str ""
  warning : Option Dict := none

/-- `CaseWarning(case=index, **e.error_dict)`: keyword-argument construction,
which raises `TypeError` when `error_dict` itself carries a `case` key. -/
def caseWarningKw (index : Nat) (d : Dict) : Except PyExc Dict :=
  if dictContains d "case" then
    Except.error (PyExc.typeError "got multiple values for keyword argument")
  else
    Except.ok (("case", Json.num (index : Int)) :: d)

/-- `evaluate_case` from `src/tools/commands.py`. The `{**params,
**case_params}` merge sits outside the `try` block, so its failure
propagates; the `result["is_correct"]` access sits inside it, so a missing
key is caught by the bare `except Exception` clause and becomes the generic
exception warning with detail `str(KeyError("is_correct"))`. -/
def evaluate_case (ev : EvalFn) (response : Json) (params : Dict)
    (case : Dict) (index : Nat) : Except PyExc CaseResult :=
  if !(dictContains case "answer") || !(dictContains case "feedback") then
    Except.ok { warning := some [("case", Json.num (index : Int)),
                                 ("message", Json.str "Missing answer/feedback field")] }
  else do
    let case_params := dictGetD case "params" (Json.obj [])
    let combined_params ← pyMerge params case_params
    match ev response (dictGetD case "answer" Json.null) combined_params with
    | Except.ok result =>
        match dictGet result "is_correct" with
        | some ic =>
            Except.ok { is_correct := ic,
                        feedback := dictGetD result "feedback" (Json.str ""),
                        warning := none }
        | none =>
            Except.ok { warning := some [("case", Json.num (index : Int)),
                          ("message", Json.str "An exception was raised while executing the evaluation function."),
                          ("detail", Json.str (unstructuredDetail (PyExc.keyError "is_correct")))] }
    | Except.error (PyExc.evaluationException d) => do
        let w ← caseWarningKw index d
        pure { warning := some w }
    | Except.error e =>
        Except.ok { warning := some [("case", Json.num (index : Int)),
                      ("message", Json.str "An exception was raised while executing the evaluation function."),
                      ("detail", Json.str (unstructuredDetail e))] }

/-- The loop of `find_first_matching_case`, carrying the running index of
`enumerate`: evaluates cases in order and stops at the first one whose
`is_correct` is truthy. -/
def find_first_matching_case_from (ev : EvalFn) (response : Json) (params : Dict) :
    List Dict → Nat → Except PyExc (List Nat × List Json × List Dict)
  | [], _ => Except.ok ([], [], [])
  | case :: rest, index => do
      let r ← evaluate_case ev response params case index
      let ws := match r.warning with
        | some w => [w]
        | none => []
      if truthy r.is_correct then
        Except.ok ([index], [r.feedback], ws)
      else do
        let (ms, fs, ws') ← find_first_matching_case_from ev response params rest (index + 1)
        Except.ok (ms, fs, ws ++ ws')

/-- `find_first_matching_case` from `src/tools/commands.py`. -/
def find_first_matching_case (ev : EvalFn) (response : Json) (params : Dict)
    (cases : List Dict) : Except PyExc (List Nat × List Json × List Dict) :=
  find_first_matching_case_from ev response params cases 0

/-- `get_case_feedback` from `src/tools/commands.py` (which, per its NOTE
comment, uses `find_first_matching_case` rather than `evaluate_all_cases`). -/
def get_case_feedback (ev : EvalFn) (response : Json) (params : Dict)
    (cases : List Dict) : Except PyExc (Option Dict × List Dict) := do
  let (matchIds, feedback, warnings) ← find_first_matching_case ev response params cases
  match matchIds with
  | [] => Except.ok (none, warnings)
  | match_id :: _ => do
      let m ← match cases[match_id]? with
        | some c => pure c
        | none => Except.error (PyExc.indexError "list index out of range")
      let m := dictSet m "id" (Json.num (match_id : Int))
      let match_params := dictGetD m "params" (Json.obj [])
      let ovr ← match match_params with
        | Json.obj fs => pure (truthy (dictGetD fs "override_eval_feedback" (Json.bool false)))
        | _ => Except.error (PyExc.attributeError "object has no attribute get")
      let m ← if ovr then do
          let match_feedback := dictGetD m "feedback" (Json.str "")
          let fb0 ← match feedback[0]? with
            | some f => pure f
            | none => Except.error (PyExc.indexError "list index out of range")
          let joined ← strJoin "<br />" [match_feedback, fb0]
          pure (dictSet m "feedback" (Json.str joined))
        else pure m
      let warnings :=
        if matchIds.length > 1 then
          warnings ++ [[("message", Json.str ("Cases " ++ String.intercalate ", " (matchIds.map toString)
            ++ " were matched. Only the first one" ++ apos ++ "s feedback was returned"))]]
        else warnings
      Except.ok (some m, warnings)

/-- The `Response(command=..., result=...)` shape returned by `evaluate`. -/
structure Response where
  command : String
  result : Dict

/-- `evaluate` from `src/tools/commands.py`, from the primary
`evaluation_function` call on. The case branch is gated on
`result["is_correct"] is False and "cases" in params and len(params["cases"]) > 0`,
evaluated left to right: the subscript raises `KeyError` when `is_correct`
is absent, and only the `False` singleton (not merely falsy values) opens
the branch. -/
def evaluate (ev : EvalFn) (response answer : Json) (params : Dict) :
    Except PyExc Response := do
  let result ← ev response answer params
  let ic ← match dictGet result "is_correct" with
    | some v => pure v
    | none => Except.error (PyExc.keyError "is_correct")
  let gate ← match ic with
    | Json.bool false =>
        match dictGet params "cases" with
        | none => pure (none : Option (List Dict))
        | some cj => do
            let n ← pyLen cj
            if n > 0 then do
              let cs ← asDicts cj
              pure (some cs)
            else pure (none : Option (List Dict))
    | _ => pure (none : Option (List Dict))
  match gate with
  | none => Except.ok ⟨"eval", result⟩
  | some cases => do
      let (mtch, warnings) ← get_case_feedback ev response params cases
      let result := if !warnings.isEmpty
        then dictSet result "warnings" (Json.arr (warnings.map Json.obj))
        else result
      match mtch with
      | none => Except.ok ⟨"eval", result⟩
      | some m => do
          let fb ← match dictGet m "feedback" with
            | some f => pure f
            | none => Except.error (PyExc.keyError "feedback")
          let result := dictSet result "feedback" fb
          let mid ← match dictGet m "id" with
            | some v => pure v
            | none => Except.error (PyExc.keyError "id")
          let result := dictSet result "matched_case" mid
          if dictContains m "mark" then do
            let n ← pyInt (dictGetD m "mark" Json.null)
            Except.ok ⟨"eval", dictSet result "is_correct" (Json.bool (n != 0))⟩
          else
            Except.ok ⟨"eval", result⟩

end Commands

namespace Handler

/-! Embedding of `src/handler.py`. `handle_eval_command` is embedded from the
point where the body has been parsed and validated (`parse.parse_body` and
`validate_eval_request` are external collaborators, out of scope per spec
section 1), with `response = body["response"]`, `answer = body["answer"]`
and `params = body.get("params", {})`. -/

/-- The contribution of one iteration of the `for i, case in enumerate(cases)`
loop of `feedback_from_cases` (lines 160-206 of `src/handler.py`): either a
warning followed by `continue`, a match (recording the evaluation function
feedback), or nothing. -/
inductive CaseOutcome where
  | warn (w : Dict)
  | matched (evalFeedback : Json)
  | noMatch

/-- The body of the `feedback_from_cases` loop for the case at index `i`.
Unlike `tools/commands.py`, missing `answer` and missing `feedback` produce
two distinct messages, the params merge sits inside the `try` block (so a
non-mapping `case.params` is contained as a generic warning), and a result
lacking `is_correct` yields its own dedicated warning. -/
def case_step (ev : EvalFn) (response : Json) (params : Dict)
    (case : Dict) (i : Nat) : CaseOutcome :=
  if !(dictContains case "answer") then
    .warn [("case", Json.num (i : Int)), ("message", Json.str "Missing answer field")]
  else if !(dictContains case "feedback") then
    .warn [("case", Json.num (i : Int)), ("message", Json.str "Missing feedback field")]
  else
    let case_params := dictGetD case "params" (Json.obj [])
    let attempt : Except PyExc Dict := do
      let merged ← pyMerge params case_params
      ev response (dictGetD case "answer" Json.null) merged
    match attempt with
    | Except.error (PyExc.evaluationException d) =>
        .warn (dictMerge [("case", Json.num (i : Int))] d)
    | Except.error e =>
        .warn [("case", Json.num (i : Int)),
               ("message", Json.str "An exception was raised while executing the evaluation function."),
               ("detail", Json.str (unstructuredDetail e))]
    | Except.ok res =>
        if !(dictContains res "is_correct") then
          .warn [("case", Json.num (i : Int)),
                 ("message", Json.str "is_correct missing from function output")]
        else if truthy (dictGetD res "is_correct" Json.null) then
          .matched (dictGetD res "feedback" (Json.str ""))
        else
          .noMatch

/-- The whole `feedback_from_cases` loop, from index `i`, accumulating
`(matches, warnings, eval_function_feedback)` in iteration order. -/
def fbc_loop (ev : EvalFn) (response : Json) (params : Dict) :
    List Dict → Nat → List Nat × List Dict × List Json
  | [], _ => ([], [], [])
  | case :: rest, i =>
      let (ms, ws, fs) := fbc_loop ev response params rest (i + 1)
      match case_step ev response params case i with
      | .warn w => (ms, w :: ws, fs)
      | .matched fb => (i :: ms, ws, fb :: fs)
      | .noMatch => (ms, ws, fs)

/-- `feedback_from_cases` from `src/handler.py`. After the loop, the matched
case is annotated with its `id`; then `matched_case["params"]` is read by
direct subscript (a `KeyError` when the matched case has no `params` key),
and when `override_eval_feedback` is falsy the evaluation function feedback
is appended to the case feedback with a `"<br />"` separator present only
when that feedback is non-empty. -/
def feedback_from_cases (ev : EvalFn) (response : Json) (params : Dict)
    (cases : List Dict) : Except PyExc (Option Dict × List Dict) := do
  let (matchIds, warnings, eval_function_feedback) := fbc_loop ev response params cases 0
  match matchIds with
  | [] => Except.ok (none, warnings)
  | m0 :: _ => do
      let matched_case ← match cases[m0]? with
        | some c => pure c
        | none => Except.error (PyExc.indexError "list index out of range")
      let matched_case := dictSet matched_case "id" (Json.num (m0 : Int))
      let pj ← match dictGet matched_case "params" with
        | some v => pure v
        | none => Except.error (PyExc.keyError "params")
      let ovr ← match pj with
        | Json.obj fs => pure (truthy (dictGetD fs "override_eval_feedback" (Json.bool false)))
        | _ => Except.error (PyExc.attributeError "object has no attribute get")
      let matched_case ← if !ovr then do
          let fb0 ← match eval_function_feedback[0]? with
            | some f => pure f
            | none => Except.error (PyExc.indexError "list index out of range")
          let n ← pyLen fb0
          let separator := if n > 0 then "<br />" else ""
          let base ← match dictGetD matched_case "feedback" (Json.str "") with
            | Json.str s => pure s
            | _ => Except.error (PyExc.typeError "can only concatenate str")
          let fb0s ← match fb0 with
            | Json.str s => pure s
            | _ => Except.error (PyExc.typeError "can only concatenate str")
          pure (dictSet matched_case "feedback" (Json.str (base ++ separator ++ fb0s)))
        else pure matched_case
      if matchIds.length = 1 then
        Except.ok (some matched_case, warnings)
      else
        Except.ok (some matched_case,
          warnings ++ [[("message", Json.str ("Cases " ++ String.intercalate ", " (matchIds.map toString)
            ++ " were matched. Only the first one" ++ apos ++ "s feedback was returned"))]])

/-- `handle_eval_command` from `src/handler.py`, from the primary
`evaluation_function` call on (the primary call sits in a `try` block whose
handlers produce `{"error": ...}` responses). The `bool(int(mark))`
conversion and the body of `feedback_from_cases` run outside any `try`, so
their exceptions propagate. -/
def handle_eval_command (ev : EvalFn) (response answer : Json) (params : Dict) :
    Except PyExc Dict :=
  match ev response answer params with
  | Except.error (PyExc.evaluationException d) =>
      Except.ok [("error", Json.obj d)]
  | Except.error e =>
      Except.ok [("error", Json.obj
        [("message", Json.str "An exception was raised while executing the evaluation function."),
         ("detail", Json.str (unstructuredDetail e))])]
  | Except.ok result => do
      let casesJ := dictGetD params "cases" (Json.arr [])
      let n ← pyLen casesJ
      if n = 0 then
        Except.ok [("command", Json.str "eval"), ("result", Json.obj result)]
      else do
        let cases ← asDicts casesJ
        let (matched_case, warnings) ← feedback_from_cases ev response params cases
        let result ← match matched_case with
          | none => pure result
          | some mc =>
              if mc.isEmpty then pure result
              else do
                let fb ← match dictGet mc "feedback" with
                  | some f => pure f
                  | none => Except.error (PyExc.keyError "feedback")
                let r1 := dictSet result "feedback" fb
                let mid ← match dictGet mc "id" with
                  | some v => pure v
                  | none => Except.error (PyExc.keyError "id")
                let r2 := dictSet r1 "matched_case" mid
                if dictContains mc "mark" then do
                  let k ← pyInt (dictGetD mc "mark" Json.null)
                  pure (dictSet r2 "is_correct" (Json.bool (k != 0)))
                else pure r2
        let result := if warnings.length != 0
          then dictSet result "warnings" (Json.arr (warnings.map Json.obj))
          else result
        Except.ok [("command", Json.str "eval"), ("result", Json.obj result)]

end Handler

/-! Stub evaluation functions used to exercise the embedding on concrete
inputs. -/

/-- An equality-style evaluator: correct exactly when the response equals
the answer, with no feedback text. -/
def evStr : EvalFn := fun r a _ => Except.ok [("is_correct", Json.bool (jsonBeq r a))]

/-- The stub from `src/tests/commands.py`: raises `ValueError("raised")`
when `params["raise"]` is truthy, else is correct when the response equals
the answer or `params["force"]` is truthy. -/
def testEvalFn : EvalFn := fun r a p =>
  if truthy (dictGetD p "raise" (Json.bool false)) then
    Except.error (PyExc.other "raised" ("ValueError(" ++ apos ++ "raised" ++ apos ++ ")"))
  else
    Except.ok [("is_correct", Json.bool (jsonBeq r a || truthy (dictGetD p "force" (Json.bool false))))]

/-- An evaluator that always succeeds and is correct, with fixed feedback. -/
def evAlwaysTrue (feedback : String) : EvalFn := fun _ _ _ =>
  Except.ok [("is_correct", Json.bool true), ("feedback", Json.str feedback)]

/-- An evaluator that returns an empty result dict (no `is_correct` key). -/
def evEmptyResult : EvalFn := fun _ _ _ => Except.ok []

/-! Basic facts about the dict operations. -/

theorem dictGet_dictSet_self (d : Dict) (k : String) (v : Json) :
    dictGet (dictSet d k v) k = some v := by
  induction d with
  | nil => simp [dictSet, dictGet]
  | cons kv rest ih =>
      obtain ⟨k', v'⟩ := kv
      by_cases h : k' = k
      · simp [dictSet, dictGet, h]
      · simp [dictSet, dictGet, h, ih]

theorem dictGet_dictSet_ne (d : Dict) (k k' : String) (v : Json) (h : k' ≠ k) :
    dictGet (dictSet d k' v) k = dictGet d k := by
  induction d with
  | nil => simp [dictSet, dictGet, h]
  | cons kv rest ih =>
      obtain ⟨k0, v0⟩ := kv
      by_cases h0 : k0 = k'
      · simp [dictSet, dictGet, h0, h]
      · simp only [dictSet, dictGet, if_neg h0]
        by_cases h1 : k0 = k <;> simp [dictGet, h1, ih]

theorem asDicts_map_obj (cs : List Dict) :
    asDicts (Json.arr (cs.map Json.obj)) = Except.ok cs := by
  induction cs with
  | nil => rfl
  | cons c rest ih =>
      simp only [asDicts, List.map, List.foldr] at ih ⊢
      rw [ih]

theorem dictContains_false_iff (d : Dict) (k : String) :
    dictContains d k = false ↔ dictGet d k = none := by
  unfold dictContains
  cases dictGet d k <;> simp

theorem dictGetD_dictSet_ne (d : Dict) (k k' : String) (v dflt : Json) (h : k' ≠ k) :
    dictGetD (dictSet d k' v) k dflt = dictGetD d k dflt := by
  simp [dictGetD, dictGet_dictSet_ne d k k' v h]

theorem strJoin_pair (sep s t : String) :
    strJoin sep [Json.str s, Json.str t] = Except.ok (s ++ sep ++ t) := rfl

/-- An evaluator that is correct when the response equals the answer, and
always returns a fixed feedback string. -/
def evWithFb (fb : String) : EvalFn := fun r a _ =>
  Except.ok [("is_correct", Json.bool (jsonBeq r a)), ("feedback", Json.str fb)]

/-- C10: if the primary evaluation call succeeds but its result lacks the
`is_correct` key, `tools/commands.evaluate` raises an uncaught `KeyError` at
the case-gating check instead of returning a response; and when `is_correct`
is present but is anything other than the boolean `False`, the case
machinery is not invoked and the primary result is returned as is. -/
theorem c10_gate_requires_is_correct :
    (∀ (ev : EvalFn) (response answer : Json) (params : Dict) (res : Dict),
      ev response answer params = Except.ok res →
      dictGet res "is_correct" = none →
      Commands.evaluate ev response answer params = Except.error (PyExc.keyError "is_correct")) ∧
    (∀ (ev : EvalFn) (response answer : Json) (params : Dict) (res : Dict) (v : Json),
      ev response answer params = Except.ok res →
      dictGet res "is_correct" = some v →
      v ≠ Json.bool false →
      Commands.evaluate ev response answer params = Except.ok ⟨"eval", res⟩) := by
  constructor
  · intro ev response answer params res hev hic
    simp [Commands.evaluate, hev, hic, Bind.bind, Except.bind]
  · intro ev response answer params res v hev hic hv
    cases v with
    | bool b =>
        cases b with
        | false => exact absurd rfl hv
        | true => simp [Commands.evaluate, hev, hic, Bind.bind, Except.bind, Pure.pure, Except.pure]
    | null => simp [Commands.evaluate, hev, hic, Bind.bind, Except.bind, Pure.pure, Except.pure]
    | num n => simp [Commands.evaluate, hev, hic, Bind.bind, Except.bind, Pure.pure, Except.pure]
    | str s => simp [Commands.evaluate, hev, hic, Bind.bind, Except.bind, Pure.pure, Except.pure]
    | arr xs => simp [Commands.evaluate, hev, hic, Bind.bind, Except.bind, Pure.pure, Except.pure]
    | obj fs => simp [Commands.evaluate, hev, hic, Bind.bind, Except.bind, Pure.pure, Except.pure]

/-- Concrete instances of `c10_gate_requires_is_correct`: an empty primary
result makes `evaluate` raise `KeyError("is_correct")`, and a correct
primary result (with cases present) is returned untouched. -/
theorem c10_gate_requires_is_correct_witness :
    Commands.evaluate evEmptyResult Json.null Json.null [] = Except.error (PyExc.keyError "is_correct") ∧
    Commands.evaluate (evAlwaysTrue "good") Json.null Json.null
        [("cases", Json.arr [Json.obj [("answer", Json.null), ("feedback", Json.str "f")]])]
      = Except.ok ⟨"eval", [("is_correct", Json.bool true), ("feedback", Json.str "good")]⟩ :=
  ⟨c10_gate_requires_is_correct.1 evEmptyResult Json.null Json.null [] [] rfl rfl,
   c10_gate_requires_is_correct.2 (evAlwaysTrue "good") Json.null Json.null _ _ (Json.bool true)
     rfl rfl (by simp)⟩

/-- C8: with no `cases` key or an empty `cases` list, both lineages return
the primary result unchanged (no `feedback`, `matched_case`, `is_correct`
modification and no `warnings` key); and in the stricter lineage of
`tools/commands.evaluate`, a primary result that is already correct also
skips the case machinery. The primary result is assumed to honour the
Evaluation Capability contract of carrying `is_correct` (spec section 6);
its absence is claim C10's territory. -/
theorem c8_no_cases_returns_primary_unchanged :
    (∀ (ev : EvalFn) (response answer : Json) (params : Dict) (res : Dict) (v : Json),
      ev response answer params = Except.ok res →
      dictGet res "is_correct" = some v →
      (dictGet params "cases" = none ∨ dictGet params "cases" = some (Json.arr [])) →
      Commands.evaluate ev response answer params = Except.ok ⟨"eval", res⟩) ∧
    (∀ (ev : EvalFn) (response answer : Json) (params : Dict) (res : Dict),
      ev response answer params = Except.ok res →
      dictGet res "is_correct" = some (Json.bool true) →
      Commands.evaluate ev response answer params = Except.ok ⟨"eval", res⟩) ∧
    (∀ (ev : EvalFn) (response answer : Json) (params : Dict) (res : Dict),
      ev response answer params = Except.ok res →
      (dictGet params "cases" = none ∨ dictGet params "cases" = some (Json.arr [])) →
      Handler.handle_eval_command ev response answer params
        = Except.ok [("command", Json.str "eval"), ("result", Json.obj res)]) := by
  refine ⟨?_, ?_, ?_⟩
  · intro ev response answer params res v hev hic hcases
    cases v with
    | bool b =>
        cases b with
        | false =>
            rcases hcases with h | h <;>
              simp [Commands.evaluate, hev, hic, h, pyLen, Bind.bind, Except.bind, Pure.pure, Except.pure]
        | true => simp [Commands.evaluate, hev, hic, Bind.bind, Except.bind, Pure.pure, Except.pure]
    | null => simp [Commands.evaluate, hev, hic, Bind.bind, Except.bind, Pure.pure, Except.pure]
    | num n => simp [Commands.evaluate, hev, hic, Bind.bind, Except.bind, Pure.pure, Except.pure]
    | str s => simp [Commands.evaluate, hev, hic, Bind.bind, Except.bind, Pure.pure, Except.pure]
    | arr xs => simp [Commands.evaluate, hev, hic, Bind.bind, Except.bind, Pure.pure, Except.pure]
    | obj fs => simp [Commands.evaluate, hev, hic, Bind.bind, Except.bind, Pure.pure, Except.pure]
  · intro ev response answer params res hev hic
    simp [Commands.evaluate, hev, hic, Bind.bind, Except.bind, Pure.pure, Except.pure]
  · intro ev response answer params res hev hcases
    rcases hcases with h | h <;>
      simp [Handler.handle_eval_command, hev, h, dictGetD, pyLen, Bind.bind, Except.bind, Pure.pure, Except.pure]

/-- Concrete instances of `c8_no_cases_returns_primary_unchanged` for the
three skip conditions. -/
theorem c8_no_cases_returns_primary_unchanged_witness :
    Commands.evaluate evStr (Json.str "r") (Json.str "a") []
      = Except.ok ⟨"eval", [("is_correct", Json.bool false)]⟩ ∧
    Commands.evaluate evStr (Json.str "r") (Json.str "r")
        [("cases", Json.arr [Json.obj [("answer", Json.str "x"), ("feedback", Json.str "f")]])]
      = Except.ok ⟨"eval", [("is_correct", Json.bool true)]⟩ ∧
    Handler.handle_eval_command evStr (Json.str "r") (Json.str "a") [("cases", Json.arr [])]
      = Except.ok [("command", Json.str "eval"),
                   ("result", Json.obj [("is_correct", Json.bool false)])] :=
  ⟨c8_no_cases_returns_primary_unchanged.1 evStr (Json.str "r") (Json.str "a") [] _ (Json.bool false)
     rfl rfl (Or.inl rfl),
   c8_no_cases_returns_primary_unchanged.2.1 evStr (Json.str "r") (Json.str "r") _ _ rfl rfl,
   c8_no_cases_returns_primary_unchanged.2.2 evStr (Json.str "r") (Json.str "a") _ _
     rfl (Or.inr rfl)⟩

/-- C9: the Case Resolution Algorithm is deterministic. The embedding is a
pure function of `(ev, response, params, cases)`, so two runs over equal,
independently constructed copies of the inputs (as before any in-place
mutation of the matched case) return the same matched case and the same
feedback, in both lineages, for any fixed pure Evaluation Capability. -/
theorem c9_case_resolution_deterministic :
    ∀ (ev : EvalFn) (response : Json) (params : Dict) (cs1 cs2 : List Dict),
      cs1 = cs2 →
      Commands.get_case_feedback ev response params cs1
        = Commands.get_case_feedback ev response params cs2 ∧
      Handler.feedback_from_cases ev response params cs1
        = Handler.feedback_from_cases ev response params cs2 := by
  intro ev response params cs1 cs2 h
  subst h
  exact ⟨rfl, rfl⟩

/-- A concrete instance of `c9_case_resolution_deterministic` on two
separately written, equal case lists. -/
theorem c9_case_resolution_deterministic_witness :
    Commands.get_case_feedback evStr (Json.str "r") []
        [[("answer", Json.str "r"), ("feedback", Json.str "f")]]
      = Commands.get_case_feedback evStr (Json.str "r") []
        [[("answer", Json.str "r"), ("feedback", Json.str "f")]] ∧
    Handler.feedback_from_cases evStr (Json.str "r") []
        [[("answer", Json.str "r"), ("feedback", Json.str "f")]]
      = Handler.feedback_from_cases evStr (Json.str "r") []
        [[("answer", Json.str "r"), ("feedback", Json.str "f")]] :=
  c9_case_resolution_deterministic evStr (Json.str "r") []
    [[("answer", Json.str "r"), ("feedback", Json.str "f")]]
    [[("answer", Json.str "r"), ("feedback", Json.str "f")]] rfl

/-- C5 counterexample: in `handler.feedback_from_cases` a case missing its
`answer` key yields the warning message "Missing answer field", not the
claimed "Missing answer/feedback field" (which only `tools/commands.py`
uses). -/
theorem c5_counterexample :
    Handler.feedback_from_cases evStr (Json.str "r") [] [[]]
      = Except.ok (none, [[("case", Json.num 0), ("message", Json.str "Missing answer field")]]) ∧
    ("Missing answer field" : String) ≠ "Missing answer/feedback field" :=
  ⟨rfl, by decide⟩

/-- C5 (amended): a case missing `answer` or `feedback` yields exactly one
warning and never participates in matching, with the Evaluation Capability
not invoked (the outcome is the same for every `ev`); the warning is
`{case: i, message: "Missing answer/feedback field"}` in
`tools/commands.evaluate_case`, while `handler.feedback_from_cases` emits
`{case: i, message: "Missing answer field"}` when `answer` is missing and
`{case: i, message: "Missing feedback field"}` when only `feedback` is
missing; in the handler loop such a case contributes exactly its warning
and no match. -/
theorem c5_missing_field_warnings :
    (∀ (ev : EvalFn) (response : Json) (params : Dict) (case : Dict) (index : Nat),
      (dictContains case "answer" = false ∨ dictContains case "feedback" = false) →
      Commands.evaluate_case ev response params case index
        = Except.ok ⟨Json.bool false, Json.str "",
            some [("case", Json.num (index : Int)),
                  ("message", Json.str "Missing answer/feedback field")]⟩) ∧
    (∀ (ev : EvalFn) (response : Json) (params : Dict) (case : Dict) (i : Nat),
      dictContains case "answer" = false →
      Handler.case_step ev response params case i
        = Handler.CaseOutcome.warn [("case", Json.num (i : Int)),
            ("message", Json.str "Missing answer field")]) ∧
    (∀ (ev : EvalFn) (response : Json) (params : Dict) (case : Dict) (i : Nat),
      dictContains case "answer" = true →
      dictContains case "feedback" = false →
      Handler.case_step ev response params case i
        = Handler.CaseOutcome.warn [("case", Json.num (i : Int)),
            ("message", Json.str "Missing feedback field")]) ∧
    (∀ (ev : EvalFn) (response : Json) (params : Dict) (case : Dict) (rest : List Dict)
        (i : Nat) (w : Dict),
      Handler.case_step ev response params case i = Handler.CaseOutcome.warn w →
      Handler.fbc_loop ev response params (case :: rest) i
        = ((Handler.fbc_loop ev response params rest (i + 1)).1,
           w :: (Handler.fbc_loop ev response params rest (i + 1)).2.1,
           (Handler.fbc_loop ev response params rest (i + 1)).2.2)) := by
  refine ⟨?_, ?_, ?_, ?_⟩
  · intro ev response params case index h
    rcases h with h | h <;> simp [Commands.evaluate_case, h]
  · intro ev response params case i h
    simp [Handler.case_step, h]
  · intro ev response params case i h1 h2
    simp [Handler.case_step, h1, h2]
  · intro ev response params case rest i w hw
    simp [Handler.fbc_loop, hw]

/-- Concrete instances of `c5_missing_field_warnings` on cases missing
`answer` or `feedback`. -/
theorem c5_missing_field_warnings_witness :
    Commands.evaluate_case evStr (Json.str "r") [] [("feedback", Json.str "f")] 0
      = Except.ok ⟨Json.bool false, Json.str "",
          some [("case", Json.num 0), ("message", Json.str "Missing answer/feedback field")]⟩ ∧
    Handler.case_step evStr (Json.str "r") [] [] 0
      = Handler.CaseOutcome.warn [("case", Json.num 0), ("message", Json.str "Missing answer field")] ∧
    Handler.case_step evStr (Json.str "r") [] [("answer", Json.str "x")] 0
      = Handler.CaseOutcome.warn [("case", Json.num 0), ("message", Json.str "Missing feedback field")] ∧
    Handler.fbc_loop evStr (Json.str "r") [] [[]] 0
      = ([], [[("case", Json.num 0), ("message", Json.str "Missing answer field")]], []) :=
  ⟨c5_missing_field_warnings.1 evStr (Json.str "r") [] [("feedback", Json.str "f")] 0 (Or.inl rfl),
   c5_missing_field_warnings.2.1 evStr (Json.str "r") [] [] 0 rfl,
   c5_missing_field_warnings.2.2.1 evStr (Json.str "r") [] [("answer", Json.str "x")] 0 rfl rfl,
   c5_missing_field_warnings.2.2.2 evStr (Json.str "r") [] [] [] 0
     [("case", Json.num 0), ("message", Json.str "Missing answer field")] rfl⟩

/-- C7 counterexample: in `tools/commands.evaluate_case` a successful
evaluation result lacking `is_correct` is caught as a `KeyError` by the
bare `except Exception` clause, so the warning carries the generic
exception message with detail `str(KeyError("is_correct"))`, not the
claimed "is_correct missing from function output" message. -/
theorem c7_counterexample :
    Commands.evaluate_case evEmptyResult (Json.str "r") []
        [("answer", Json.str "x"), ("feedback", Json.str "f")] 0
      = Except.ok ⟨Json.bool false, Json.str "",
          some [("case", Json.num 0),
                ("message", Json.str "An exception was raised while executing the evaluation function."),
                ("detail", Json.str (apos ++ "is_correct" ++ apos))]⟩ ∧
    ("An exception was raised while executing the evaluation function." : String)
      ≠ "is_correct missing from function output" :=
  ⟨rfl, by decide⟩

/-- C7 (amended): a successful evaluation call whose result lacks
`is_correct` contributes no match and lets no exception escape in either
lineage; `handler.feedback_from_cases` surfaces the dedicated warning
"is_correct missing from function output", while
`tools/commands.evaluate_case` catches the `KeyError` from
`result["is_correct"]` and surfaces the generic exception warning with
detail `str(KeyError("is_correct"))`. -/
theorem c7_missing_is_correct :
    (∀ (ev : EvalFn) (response : Json) (params : Dict) (case : Dict) (i : Nat) (mp res : Dict),
      dictContains case "answer" = true →
      dictContains case "feedback" = true →
      pyMerge params (dictGetD case "params" (Json.obj [])) = Except.ok mp →
      ev response (dictGetD case "answer" Json.null) mp = Except.ok res →
      dictContains res "is_correct" = false →
      Handler.case_step ev response params case i
        = Handler.CaseOutcome.warn [("case", Json.num (i : Int)),
            ("message", Json.str "is_correct missing from function output")]) ∧
    (∀ (ev : EvalFn) (response : Json) (params : Dict) (case : Dict) (index : Nat) (mp res : Dict),
      dictContains case "answer" = true →
      dictContains case "feedback" = true →
      pyMerge params (dictGetD case "params" (Json.obj [])) = Except.ok mp →
      ev response (dictGetD case "answer" Json.null) mp = Except.ok res →
      dictGet res "is_correct" = none →
      Commands.evaluate_case ev response params case index
        = Except.ok ⟨Json.bool false, Json.str "",
            some [("case", Json.num (index : Int)),
                  ("message", Json.str "An exception was raised while executing the evaluation function."),
                  ("detail", Json.str (unstructuredDetail (PyExc.keyError "is_correct")))]⟩) := by
  constructor
  · intro ev response params case i mp res h1 h2 hm hev hic
    simp [Handler.case_step, h1, h2, hm, hev, hic, Bind.bind, Except.bind]
  · intro ev response params case index mp res h1 h2 hm hev hic
    simp [Commands.evaluate_case, h1, h2, hm, hev, hic, Bind.bind, Except.bind]

/-- Concrete instances of `c7_missing_is_correct` with an evaluator that
returns an empty result dict. -/
theorem c7_missing_is_correct_witness :
    Handler.case_step evEmptyResult (Json.str "r") []
        [("answer", Json.str "x"), ("feedback", Json.str "f")] 2
      = Handler.CaseOutcome.warn [("case", Json.num 2),
          ("message", Json.str "is_correct missing from function output")] ∧
    Commands.evaluate_case evEmptyResult (Json.str "r") []
        [("answer", Json.str "x"), ("feedback", Json.str "f")] 2
      = Except.ok ⟨Json.bool false, Json.str "",
          some [("case", Json.num 2),
                ("message", Json.str "An exception was raised while executing the evaluation function."),
                ("detail", Json.str (apos ++ "is_correct" ++ apos))]⟩ :=
  ⟨c7_missing_is_correct.1 evEmptyResult (Json.str "r") []
     [("answer", Json.str "x"), ("feedback", Json.str "f")] 2 [] [] rfl rfl rfl rfl rfl,
   c7_missing_is_correct.2 evEmptyResult (Json.str "r") []
     [("answer", Json.str "x"), ("feedback", Json.str "f")] 2 [] [] rfl rfl rfl rfl rfl⟩

/-- An evaluator that always raises an unstructured exception. -/
def evRaise : EvalFn := fun _ _ _ =>
  Except.error (PyExc.other "boom" ("RuntimeError(" ++ apos ++ "boom" ++ apos ++ ")"))

/-- C6: an unstructured exception raised by the Evaluation Capability at
case `i` is contained as the warning `{case: i, message: "An exception was
raised while executing the evaluation function.", detail: str(e) (repr(e)
when str(e) is empty)}` in both lineages, the request is not aborted, and
evaluation of the remaining cases proceeds; end to end,
`tools/commands.evaluate` carries the warning on the result. -/
theorem c6_exception_contained_as_warning :
    (∀ (ev : EvalFn) (response : Json) (params : Dict) (case : Dict) (index : Nat)
        (mp : Dict) (e : PyExc),
      dictContains case "answer" = true →
      dictContains case "feedback" = true →
      pyMerge params (dictGetD case "params" (Json.obj [])) = Except.ok mp →
      ev response (dictGetD case "answer" Json.null) mp = Except.error e →
      e.isEvalExc = false →
      Commands.evaluate_case ev response params case index
        = Except.ok ⟨Json.bool false, Json.str "",
            some [("case", Json.num (index : Int)),
                  ("message", Json.str "An exception was raised while executing the evaluation function."),
                  ("detail", Json.str (unstructuredDetail e))]⟩) ∧
    (∀ (ev : EvalFn) (response : Json) (params : Dict) (case : Dict) (i : Nat)
        (mp : Dict) (e : PyExc),
      dictContains case "answer" = true →
      dictContains case "feedback" = true →
      pyMerge params (dictGetD case "params" (Json.obj [])) = Except.ok mp →
      ev response (dictGetD case "answer" Json.null) mp = Except.error e →
      e.isEvalExc = false →
      Handler.case_step ev response params case i
        = Handler.CaseOutcome.warn [("case", Json.num (i : Int)),
            ("message", Json.str "An exception was raised while executing the evaluation function."),
            ("detail", Json.str (unstructuredDetail e))]) ∧
    (∀ (ev : EvalFn) (response : Json) (params : Dict) (case : Dict) (rest : List Dict)
        (index : Nat) (fb : Json) (w : Dict) (ms : List Nat) (fs : List Json) (ws : List Dict),
      Commands.evaluate_case ev response params case index = Except.ok ⟨Json.bool false, fb, some w⟩ →
      Commands.find_first_matching_case_from ev response params rest (index + 1) = Except.ok (ms, fs, ws) →
      Commands.find_first_matching_case_from ev response params (case :: rest) index
        = Except.ok (ms, fs, w :: ws)) ∧
    (∀ (ev : EvalFn) (response : Json) (params : Dict) (case : Dict) (rest : List Dict)
        (i : Nat) (w : Dict),
      Handler.case_step ev response params case i = Handler.CaseOutcome.warn w →
      Handler.fbc_loop ev response params (case :: rest) i
        = ((Handler.fbc_loop ev response params rest (i + 1)).1,
           w :: (Handler.fbc_loop ev response params rest (i + 1)).2.1,
           (Handler.fbc_loop ev response params rest (i + 1)).2.2)) ∧
    Commands.evaluate testEvalFn (Json.str "hello") (Json.str "world")
        [("cases", Json.arr [Json.obj
          [("answer", Json.str "hello"),
           ("feedback", Json.str ("should be " ++ apos ++ "hello" ++ apos ++ ".")),
           ("params", Json.obj [("raise", Json.bool true)])]])]
      = Except.ok ⟨"eval",
          [("is_correct", Json.bool false),
           ("warnings", Json.arr [Json.obj
             [("case", Json.num 0),
              ("message", Json.str "An exception was raised while executing the evaluation function."),
              ("detail", Json.str "raised")]])]⟩ := by
  refine ⟨?_, ?_, ?_, ?_, ?_⟩
  · intro ev response params case index mp e h1 h2 hm hev he
    cases e with
    | evaluationException d => simp [PyExc.isEvalExc] at he
    | keyError k => simp [Commands.evaluate_case, h1, h2, hm, hev, Bind.bind, Except.bind]
    | valueError m => simp [Commands.evaluate_case, h1, h2, hm, hev, Bind.bind, Except.bind]
    | typeError m => simp [Commands.evaluate_case, h1, h2, hm, hev, Bind.bind, Except.bind]
    | indexError m => simp [Commands.evaluate_case, h1, h2, hm, hev, Bind.bind, Except.bind]
    | attributeError m => simp [Commands.evaluate_case, h1, h2, hm, hev, Bind.bind, Except.bind]
    | other s r => simp [Commands.evaluate_case, h1, h2, hm, hev, Bind.bind, Except.bind]
  · intro ev response params case i mp e h1 h2 hm hev he
    cases e with
    | evaluationException d => simp [PyExc.isEvalExc] at he
    | keyError k => simp [Handler.case_step, h1, h2, hm, hev, Bind.bind, Except.bind]
    | valueError m => simp [Handler.case_step, h1, h2, hm, hev, Bind.bind, Except.bind]
    | typeError m => simp [Handler.case_step, h1, h2, hm, hev, Bind.bind, Except.bind]
    | indexError m => simp [Handler.case_step, h1, h2, hm, hev, Bind.bind, Except.bind]
    | attributeError m => simp [Handler.case_step, h1, h2, hm, hev, Bind.bind, Except.bind]
    | other s r => simp [Handler.case_step, h1, h2, hm, hev, Bind.bind, Except.bind]
  · intro ev response params case rest index fb w ms fs ws h1 h2
    simp [Commands.find_first_matching_case_from, h1, h2, truthy, Bind.bind, Except.bind]
  · intro ev response params case rest i w hw
    simp [Handler.fbc_loop, hw]
  · rfl

/-- Concrete instances of `c6_exception_contained_as_warning` with an
always-raising evaluator. -/
theorem c6_exception_contained_as_warning_witness :
    Commands.evaluate_case evRaise (Json.str "r") []
        [("answer", Json.str "x"), ("feedback", Json.str "f")] 0
      = Except.ok ⟨Json.bool false, Json.str "",
          some [("case", Json.num 0),
                ("message", Json.str "An exception was raised while executing the evaluation function."),
                ("detail", Json.str "boom")]⟩ ∧
    Handler.case_step evRaise (Json.str "r") []
        [("answer", Json.str "x"), ("feedback", Json.str "f")] 0
      = Handler.CaseOutcome.warn [("case", Json.num 0),
          ("message", Json.str "An exception was raised while executing the evaluation function."),
          ("detail", Json.str "boom")] ∧
    Commands.find_first_matching_case_from evRaise (Json.str "r") []
        [[("answer", Json.str "x"), ("feedback", Json.str "f")]] 0
      = Except.ok ([], [],
          [[("case", Json.num 0),
            ("message", Json.str "An exception was raised while executing the evaluation function."),
            ("detail", Json.str "boom")]]) ∧
    Handler.fbc_loop evRaise (Json.str "r") []
        [[("answer", Json.str "x"), ("feedback", Json.str "f")]] 0
      = ([],
         [[("case", Json.num 0),
           ("message", Json.str "An exception was raised while executing the evaluation function."),
           ("detail", Json.str "boom")]], []) :=
  ⟨c6_exception_contained_as_warning.1 evRaise (Json.str "r") []
     [("answer", Json.str "x"), ("feedback", Json.str "f")] 0 [] _ rfl rfl rfl rfl rfl,
   c6_exception_contained_as_warning.2.1 evRaise (Json.str "r") []
     [("answer", Json.str "x"), ("feedback", Json.str "f")] 0 [] _ rfl rfl rfl rfl rfl,
   c6_exception_contained_as_warning.2.2.1 evRaise (Json.str "r") []
     [("answer", Json.str "x"), ("feedback", Json.str "f")] [] 0 (Json.str "")
     [("case", Json.num 0),
      ("message", Json.str "An exception was raised while executing the evaluation function."),
      ("detail", Json.str "boom")] [] [] [] rfl rfl,
   c6_exception_contained_as_warning.2.2.2.1 evRaise (Json.str "r") []
     [("answer", Json.str "x"), ("feedback", Json.str "f")] [] 0
     [("case", Json.num 0),
      ("message", Json.str "An exception was raised while executing the evaluation function."),
      ("detail", Json.str "boom")] rfl⟩

/-- C1 counterexample: in `tools/commands.get_case_feedback` a truthy
`override_eval_feedback` joins the case feedback and the (empty) evaluation
feedback with the separator always present, giving "fb<br />" where the
claim requires "fb"; and in `handler.feedback_from_cases` a truthy
`override_eval_feedback` leaves the case feedback verbatim ("fb") where the
claim requires "fb<br />efb". -/
theorem c1_counterexample :
    Commands.get_case_feedback evStr (Json.str "r") []
        [[("answer", Json.str "r"), ("feedback", Json.str "fb"),
          ("params", Json.obj [("override_eval_feedback", Json.bool true)])]]
      = Except.ok (some [("answer", Json.str "r"), ("feedback", Json.str "fb<br />"),
          ("params", Json.obj [("override_eval_feedback", Json.bool true)]),
          ("id", Json.num 0)], []) ∧
    ("fb<br />" : String) ≠ "fb" ∧
    Handler.feedback_from_cases (evWithFb "efb") (Json.str "r") []
        [[("answer", Json.str "r"), ("feedback", Json.str "fb"),
          ("params", Json.obj [("override_eval_feedback", Json.bool true)])]]
      = Except.ok (some [("answer", Json.str "r"), ("feedback", Json.str "fb"),
          ("params", Json.obj [("override_eval_feedback", Json.bool true)]),
          ("id", Json.num 0)], []) ∧
    ("fb" : String) ≠ "fb<br />efb" :=
  ⟨rfl, by decide, rfl, by decide⟩

/-- C1 (amended): feedback combination for the matched case. In
`tools/commands.get_case_feedback`: a truthy `params.override_eval_feedback`
overwrites the matched case feedback with case feedback + "<br />" +
evaluation feedback, the separator always present (even when the evaluation
feedback is empty); falsy or absent leaves the feedback verbatim. In
`handler.feedback_from_cases` the condition is inverted: falsy or absent
appends the evaluation feedback with the "<br />" separator present only
when the evaluation feedback is non-empty, and truthy leaves the feedback
verbatim. -/
theorem c1_feedback_combination :
    (∀ (ev : EvalFn) (response : Json) (params : Dict) (cases : List Dict)
        (i : Nat) (c cp : Dict) (s t : String) (ws : List Dict),
      Commands.find_first_matching_case ev response params cases
        = Except.ok ([i], [Json.str t], ws) →
      cases[i]? = some c →
      dictGetD c "params" (Json.obj []) = Json.obj cp →
      truthy (dictGetD cp "override_eval_feedback" (Json.bool false)) = true →
      dictGet c "feedback" = some (Json.str s) →
      Commands.get_case_feedback ev response params cases
        = Except.ok (some (dictSet (dictSet c "id" (Json.num (i : Int))) "feedback"
            (Json.str (s ++ "<br />" ++ t))), ws)) ∧
    (∀ (ev : EvalFn) (response : Json) (params : Dict) (cases : List Dict)
        (i : Nat) (c cp : Dict) (t : String) (ws : List Dict),
      Commands.find_first_matching_case ev response params cases
        = Except.ok ([i], [Json.str t], ws) →
      cases[i]? = some c →
      dictGetD c "params" (Json.obj []) = Json.obj cp →
      truthy (dictGetD cp "override_eval_feedback" (Json.bool false)) = false →
      Commands.get_case_feedback ev response params cases
        = Except.ok (some (dictSet c "id" (Json.num (i : Int))), ws)) ∧
    (∀ (ev : EvalFn) (response : Json) (params : Dict) (cases : List Dict)
        (i : Nat) (c cp : Dict) (s t : String) (ws : List Dict),
      Handler.fbc_loop ev response params cases 0 = ([i], ws, [Json.str t]) →
      cases[i]? = some c →
      dictGet c "params" = some (Json.obj cp) →
      truthy (dictGetD cp "override_eval_feedback" (Json.bool false)) = false →
      dictGet c "feedback" = some (Json.str s) →
      Handler.feedback_from_cases ev response params cases
        = Except.ok (some (dictSet (dictSet c "id" (Json.num (i : Int))) "feedback"
            (Json.str (s ++ (if 0 < t.length then "<br />" else "") ++ t))), ws)) ∧
    (∀ (ev : EvalFn) (response : Json) (params : Dict) (cases : List Dict)
        (i : Nat) (c cp : Dict) (ws : List Dict) (fs : List Json),
      Handler.fbc_loop ev response params cases 0 = ([i], ws, fs) →
      cases[i]? = some c →
      dictGet c "params" = some (Json.obj cp) →
      truthy (dictGetD cp "override_eval_feedback" (Json.bool false)) = true →
      Handler.feedback_from_cases ev response params cases
        = Except.ok (some (dictSet c "id" (Json.num (i : Int))), ws)) := by
  refine ⟨?_, ?_, ?_, ?_⟩
  · intro ev response params cases i c cp s t ws h1 h2 h3 h4 h5
    have h5d : dictGetD c "feedback" (Json.str "") = Json.str s := by simp [dictGetD, h5]
    simp [Commands.get_case_feedback, h1, h2, Bind.bind, Except.bind, Pure.pure, Except.pure,
      dictGetD_dictSet_ne, h3, h4, h5d, strJoin_pair]
  · intro ev response params cases i c cp t ws h1 h2 h3 h4
    simp [Commands.get_case_feedback, h1, h2, Bind.bind, Except.bind, Pure.pure, Except.pure,
      dictGetD_dictSet_ne, h3, h4]
  · intro ev response params cases i c cp s t ws h1 h2 h3 h4 h5
    have h5d : dictGetD c "feedback" (Json.str "") = Json.str s := by simp [dictGetD, h5]
    simp [Handler.feedback_from_cases, h1, h2, Bind.bind, Except.bind, Pure.pure, Except.pure,
      dictGet_dictSet_ne, dictGetD_dictSet_ne, h3, h4, h5d, pyLen]
  · intro ev response params cases i c cp ws fs h1 h2 h3 h4
    simp [Handler.feedback_from_cases, h1, h2, Bind.bind, Except.bind, Pure.pure, Except.pure,
      dictGet_dictSet_ne, dictGetD_dictSet_ne, h3, h4]

/-- Concrete instances of `c1_feedback_combination` covering the four
combination branches. -/
theorem c1_feedback_combination_witness :
    Commands.get_case_feedback evStr (Json.str "r") []
        [[("answer", Json.str "r"), ("feedback", Json.str "fb"),
          ("params", Json.obj [("override_eval_feedback", Json.bool true)])]]
      = Except.ok (some (dictSet (dictSet
          [("answer", Json.str "r"), ("feedback", Json.str "fb"),
           ("params", Json.obj [("override_eval_feedback", Json.bool true)])]
          "id" (Json.num 0)) "feedback" (Json.str ("fb" ++ "<br />" ++ ""))), []) ∧
    Commands.get_case_feedback evStr (Json.str "r") []
        [[("answer", Json.str "r"), ("feedback", Json.str "fb")]]
      = Except.ok (some (dictSet [("answer", Json.str "r"), ("feedback", Json.str "fb")]
          "id" (Json.num 0)), []) ∧
    Handler.feedback_from_cases (evWithFb "efb") (Json.str "r") []
        [[("answer", Json.str "r"), ("feedback", Json.str "fb"), ("params", Json.obj [])]]
      = Except.ok (some (dictSet (dictSet
          [("answer", Json.str "r"), ("feedback", Json.str "fb"), ("params", Json.obj [])]
          "id" (Json.num 0)) "feedback"
          (Json.str ("fb" ++ (if 0 < ("efb" : String).length then "<br />" else "") ++ "efb"))), []) ∧
    Handler.feedback_from_cases (evWithFb "efb") (Json.str "r") []
        [[("answer", Json.str "r"), ("feedback", Json.str "fb"),
          ("params", Json.obj [("override_eval_feedback", Json.bool true)])]]
      = Except.ok (some (dictSet
          [("answer", Json.str "r"), ("feedback", Json.str "fb"),
           ("params", Json.obj [("override_eval_feedback", Json.bool true)])]
          "id" (Json.num 0)), []) :=
  ⟨c1_feedback_combination.1 evStr (Json.str "r") [] _ 0
     [("answer", Json.str "r"), ("feedback", Json.str "fb"),
      ("params", Json.obj [("override_eval_feedback", Json.bool true)])]
     [("override_eval_feedback", Json.bool true)] "fb" "" [] rfl rfl rfl rfl rfl,
   c1_feedback_combination.2.1 evStr (Json.str "r") [] _ 0
     [("answer", Json.str "r"), ("feedback", Json.str "fb")] [] "" [] rfl rfl rfl rfl,
   c1_feedback_combination.2.2.1 (evWithFb "efb") (Json.str "r") [] _ 0
     [("answer", Json.str "r"), ("feedback", Json.str "fb"), ("params", Json.obj [])]
     [] "fb" "efb" [] rfl rfl rfl rfl rfl,
   c1_feedback_combination.2.2.2 (evWithFb "efb") (Json.str "r") [] _ 0
     [("answer", Json.str "r"), ("feedback", Json.str "fb"),
      ("params", Json.obj [("override_eval_feedback", Json.bool true)])]
     [("override_eval_feedback", Json.bool true)] [] [Json.str "efb"] rfl rfl rfl rfl⟩

/-- The case list of `test_multiple_matched_cases_are_combined_and_warned`
from `src/tests/commands.py`: with response "yes", cases 0 (via its `force`
param) and 1 both evaluate as correct. -/
def multiMatchParams : Dict :=
  [("cases", Json.arr
    [Json.obj [("answer", Json.str "hello"),
               ("feedback", Json.str ("should be " ++ apos ++ "hello" ++ apos ++ ".")),
               ("params", Json.obj [("force", Json.bool true)])],
     Json.obj [("answer", Json.str "yes"),
               ("feedback", Json.str ("should be " ++ apos ++ "yes" ++ apos ++ "."))],
     Json.obj [("answer", Json.str "no"),
               ("feedback", Json.str ("should be " ++ apos ++ "no" ++ apos ++ "."))]])]

/-- C2: on the inputs of the repository test
`test_multiple_matched_cases_are_combined_and_warned` (cases 0 and 1 both
correct), `tools/commands.evaluate` returns a result with `matched_case = 0`
and NO `warnings` key at all, because `find_first_matching_case` stops at
the first match and case 1 is never evaluated — contradicting both the
claim and the repository's own test; `handler.handle_eval_command` on the
same inputs produces exactly the claimed single aggregate warning and
`matched_case = 0`. -/
theorem c2_short_circuit_drops_warning :
    Commands.evaluate testEvalFn (Json.str "yes") (Json.str "world") multiMatchParams
      = Except.ok ⟨"eval",
          [("is_correct", Json.bool false),
           ("feedback", Json.str ("should be " ++ apos ++ "hello" ++ apos ++ ".")),
           ("matched_case", Json.num 0)]⟩ ∧
    dictGet [("is_correct", Json.bool false),
             ("feedback", Json.str ("should be " ++ apos ++ "hello" ++ apos ++ ".")),
             ("matched_case", Json.num 0)] "warnings" = none ∧
    Handler.handle_eval_command testEvalFn (Json.str "yes") (Json.str "world") multiMatchParams
      = Except.ok [("command", Json.str "eval"), ("result", Json.obj
          [("is_correct", Json.bool false),
           ("feedback", Json.str ("should be " ++ apos ++ "hello" ++ apos ++ ".")),
           ("matched_case", Json.num 0),
           ("warnings", Json.arr [Json.obj [("message",
             Json.str ("Cases 0, 1 were matched. Only the first one" ++ apos ++ "s feedback was returned"))]])])] :=
  ⟨rfl, rfl, rfl⟩

/-- C3 counterexample: result assembly can raise. A matched case whose
`mark` is the non-numeric string "yes" makes `tools/commands.evaluate`
propagate a `ValueError` from `int(mark)`, and a matched case lacking a
`params` key makes `handler.feedback_from_cases` raise `KeyError("params")`
at the `override_eval_feedback` check. -/
theorem c3_counterexample :
    Commands.evaluate testEvalFn (Json.str "r") (Json.str "a")
        [("cases", Json.arr [Json.obj [("answer", Json.str "x"), ("feedback", Json.str "f"),
           ("mark", Json.str "yes"), ("params", Json.obj [("force", Json.bool true)])]])]
      = Except.error (PyExc.valueError
          ("invalid literal for int() with base 10: " ++ apos ++ "yes" ++ apos)) ∧
    Handler.feedback_from_cases evStr (Json.str "r") []
        [[("answer", Json.str "r"), ("feedback", Json.str "fb")]]
      = Except.error (PyExc.keyError "params") :=
  ⟨rfl, rfl⟩

/-- C3 (amended): result assembly is not exception-free. The `bool(int(mark))`
conversion of a matched case propagates its fault in both lineages, and in
`handler.feedback_from_cases` a matched case lacking a `params` key raises
`KeyError("params")`; apart from these assembly raise points, per-case
failures are contained: when no case matches, both resolvers return
normally with the collected warnings. -/
theorem c3_assembly_raise_points :
    (∀ (ev : EvalFn) (response : Json) (params : Dict) (cases : List Dict)
        (i : Nat) (ms : List Nat) (ws : List Dict) (fs : List Json) (c : Dict),
      Handler.fbc_loop ev response params cases 0 = (i :: ms, ws, fs) →
      cases[i]? = some c →
      dictGet c "params" = none →
      Handler.feedback_from_cases ev response params cases
        = Except.error (PyExc.keyError "params")) ∧
    (∀ (ev : EvalFn) (response : Json) (params : Dict) (cases : List Dict)
        (fs : List Json) (ws : List Dict),
      Commands.find_first_matching_case ev response params cases = Except.ok ([], fs, ws) →
      Commands.get_case_feedback ev response params cases = Except.ok (none, ws)) ∧
    (∀ (ev : EvalFn) (response : Json) (params : Dict) (cases : List Dict)
        (ws : List Dict) (fs : List Json),
      Handler.fbc_loop ev response params cases 0 = ([], ws, fs) →
      Handler.feedback_from_cases ev response params cases = Except.ok (none, ws)) ∧
    Handler.handle_eval_command evStr (Json.str "r") (Json.str "a")
        [("cases", Json.arr [Json.obj [("answer", Json.str "r"), ("feedback", Json.str "f"),
           ("mark", Json.str "yes"), ("params", Json.obj [])]])]
      = Except.error (PyExc.valueError
          ("invalid literal for int() with base 10: " ++ apos ++ "yes" ++ apos)) := by
  refine ⟨?_, ?_, ?_, ?_⟩
  · intro ev response params cases i ms ws fs c h1 h2 h3
    simp [Handler.feedback_from_cases, h1, h2, Bind.bind, Except.bind, Pure.pure, Except.pure,
      dictGet_dictSet_ne, h3]
  · intro ev response params cases fs ws h
    simp [Commands.get_case_feedback, h, Bind.bind, Except.bind, Pure.pure, Except.pure]
  · intro ev response params cases ws fs h
    simp [Handler.feedback_from_cases, h, Bind.bind, Except.bind, Pure.pure, Except.pure]
  · rfl

/-- Concrete instances of `c3_assembly_raise_points`. -/
theorem c3_assembly_raise_points_witness :
    Handler.feedback_from_cases evStr (Json.str "r") []
        [[("answer", Json.str "r"), ("feedback", Json.str "f")]]
      = Except.error (PyExc.keyError "params") ∧
    Commands.get_case_feedback evStr (Json.str "r") []
        [[("answer", Json.str "x"), ("feedback", Json.str "f")]]
      = Except.ok (none, []) ∧
    Handler.feedback_from_cases evStr (Json.str "r") []
        [[("answer", Json.str "x"), ("feedback", Json.str "f")]]
      = Except.ok (none, []) :=
  ⟨c3_assembly_raise_points.1 evStr (Json.str "r") [] _ 0 [] [] [Json.str ""]
     [("answer", Json.str "r"), ("feedback", Json.str "f")] rfl rfl rfl,
   c3_assembly_raise_points.2.1 evStr (Json.str "r") [] _ [] [] rfl,
   c3_assembly_raise_points.2.2.1 evStr (Json.str "r") [] _ [] [] rfl⟩

/-- C4: mark override. When the matched case carries a `mark` field, both
lineages set the final `is_correct` in the outer result to `bool(int(mark))`
(`mark = 0` forces `False`, `mark = 1` forces `True`, and in the handler
lineage this applies regardless of the primary evaluation outcome); a mark
value that `int()` cannot convert makes the whole command propagate the
conversion fault rather than swallow it. -/
theorem c4_mark_override :
    (∀ (ev : EvalFn) (response answer : Json) (params res : Dict)
        (cs : List Dict) (m : Dict) (ws : List Dict) (mk fb mid : Json),
      ev response answer params = Except.ok res →
      dictGet res "is_correct" = some (Json.bool false) →
      dictGet params "cases" = some (Json.arr (cs.map Json.obj)) →
      cs ≠ [] →
      Commands.get_case_feedback ev response params cs = Except.ok (some m, ws) →
      dictGet m "feedback" = some fb →
      dictGet m "id" = some mid →
      dictGet m "mark" = some mk →
      (∀ n, pyInt mk = Except.ok n →
        ∃ r, Commands.evaluate ev response answer params = Except.ok ⟨"eval", r⟩ ∧
          dictGet r "is_correct" = some (Json.bool (n != 0))) ∧
      (∀ e, pyInt mk = Except.error e →
        Commands.evaluate ev response answer params = Except.error e)) ∧
    (∀ (ev : EvalFn) (response answer : Json) (params res : Dict)
        (cs : List Dict) (m : Dict) (ws : List Dict) (mk fb mid : Json),
      ev response answer params = Except.ok res →
      dictGet params "cases" = some (Json.arr (cs.map Json.obj)) →
      cs ≠ [] →
      Handler.feedback_from_cases ev response params cs = Except.ok (some m, ws) →
      m ≠ [] →
      dictGet m "feedback" = some fb →
      dictGet m "id" = some mid →
      dictGet m "mark" = some mk →
      (∀ n, pyInt mk = Except.ok n →
        ∃ r, Handler.handle_eval_command ev response answer params
            = Except.ok [("command", Json.str "eval"), ("result", Json.obj r)] ∧
          dictGet r "is_correct" = some (Json.bool (n != 0))) ∧
      (∀ e, pyInt mk = Except.error e →
        Handler.handle_eval_command ev response answer params = Except.error e)) := by
  constructor
  · intro ev response answer params res cs m ws mk fb mid hev hic hcs hne hgcf hfb hmid hmk
    have hlen : 0 < cs.length := List.length_pos.mpr hne
    have hcont : dictContains m "mark" = true := by simp [dictContains, hmk]
    have hmkd : dictGetD m "mark" Json.null = mk := by simp [dictGetD, hmk]
    have key : Commands.evaluate ev response answer params
        = (match pyInt mk with
           | Except.ok n => Except.ok ⟨"eval",
               dictSet (dictSet (dictSet
                 (if (!ws.isEmpty) = true then dictSet res "warnings" (Json.arr (ws.map Json.obj)) else res)
                 "feedback" fb) "matched_case" mid) "is_correct" (Json.bool (n != 0))⟩
           | Except.error e => Except.error e) := by
      simp [Commands.evaluate, hev, hic, hcs, asDicts_map_obj, hlen, hgcf, hfb, hmid, hcont,
        hmkd, pyLen, Bind.bind, Except.bind, Pure.pure, Except.pure]
      cases pyInt mk <;> rfl
    constructor
    · intro n hn
      refine ⟨dictSet (dictSet (dictSet
          (if (!ws.isEmpty) = true then dictSet res "warnings" (Json.arr (ws.map Json.obj)) else res)
          "feedback" fb) "matched_case" mid) "is_correct" (Json.bool (n != 0)),
        ?_, dictGet_dictSet_self _ _ _⟩
      rw [key, hn]
    · intro e he
      rw [key, he]
  · intro ev response answer params res cs m ws mk fb mid hev hcs hne hfbc hmne hfb hmid hmk
    have hlen : cs.length ≠ 0 := fun h => hne (List.eq_nil_of_length_eq_zero h)
    have hcont : dictContains m "mark" = true := by simp [dictContains, hmk]
    have hmkd : dictGetD m "mark" Json.null = mk := by simp [dictGetD, hmk]
    have hcsd : dictGetD params "cases" (Json.arr []) = Json.arr (cs.map Json.obj) := by
      simp [dictGetD, hcs]
    have hmem : m.isEmpty = false := by
      cases m with
      | nil => exact absurd rfl hmne
      | cons a l => rfl
    have key : Handler.handle_eval_command ev response answer params
        = (match pyInt mk with
           | Except.ok n => Except.ok [("command", Json.str "eval"), ("result", Json.obj
               (if (ws.length != 0) = true
                then dictSet (dictSet (dictSet (dictSet res "feedback" fb) "matched_case" mid)
                       "is_correct" (Json.bool (n != 0))) "warnings" (Json.arr (ws.map Json.obj))
                else dictSet (dictSet (dictSet res "feedback" fb) "matched_case" mid)
                       "is_correct" (Json.bool (n != 0))))]
           | Except.error e => Except.error e) := by
      simp [Handler.handle_eval_command, hev, hcsd, asDicts_map_obj, hlen, hfbc, hmem, hfb,
        hmid, hcont, hmkd, pyLen, Bind.bind, Except.bind, Pure.pure, Except.pure]
      cases pyInt mk <;> rfl
    constructor
    · intro n hn
      refine ⟨(if (ws.length != 0) = true
          then dictSet (dictSet (dictSet (dictSet res "feedback" fb) "matched_case" mid)
                 "is_correct" (Json.bool (n != 0))) "warnings" (Json.arr (ws.map Json.obj))
          else dictSet (dictSet (dictSet res "feedback" fb) "matched_case" mid)
                 "is_correct" (Json.bool (n != 0))), ?_, ?_⟩
      · rw [key, hn]
      · by_cases hw : (ws.length != 0) = true <;>
          simp [hw, dictGet_dictSet_self, dictGet_dictSet_ne]
    · intro e he
      rw [key, he]

/-- Concrete instances of `c4_mark_override`: `mark = 1` forces `True` in
the commands lineage; `mark = 0` forces `False` in the handler lineage even
though the primary evaluation was correct; `mark = "yes"` propagates a
`ValueError` in both lineages. -/
theorem c4_mark_override_witness :
    (∃ r, Commands.evaluate evStr (Json.str "r") (Json.str "a")
        [("cases", Json.arr [Json.obj [("answer", Json.str "r"), ("feedback", Json.str "f"),
           ("mark", Json.num 1)]])]
        = Except.ok ⟨"eval", r⟩ ∧
      dictGet r "is_correct" = some (Json.bool true)) ∧
    Commands.evaluate evStr (Json.str "r") (Json.str "a")
        [("cases", Json.arr [Json.obj [("answer", Json.str "r"), ("feedback", Json.str "f"),
           ("mark", Json.str "yes")]])]
      = Except.error (PyExc.valueError
          ("invalid literal for int() with base 10: " ++ apos ++ "yes" ++ apos)) ∧
    (∃ r, Handler.handle_eval_command evStr (Json.str "r") (Json.str "r")
        [("cases", Json.arr [Json.obj [("answer", Json.str "r"), ("feedback", Json.str "f"),
           ("mark", Json.num 0), ("params", Json.obj [])]])]
        = Except.ok [("command", Json.str "eval"), ("result", Json.obj r)] ∧
      dictGet r "is_correct" = some (Json.bool false)) ∧
    Handler.handle_eval_command evStr (Json.str "r") (Json.str "r")
        [("cases", Json.arr [Json.obj [("answer", Json.str "r"), ("feedback", Json.str "f"),
           ("mark", Json.str "yes"), ("params", Json.obj [])]])]
      = Except.error (PyExc.valueError
          ("invalid literal for int() with base 10: " ++ apos ++ "yes" ++ apos)) :=
  ⟨(c4_mark_override.1 evStr (Json.str "r") (Json.str "a")
      [("cases", Json.arr [Json.obj [("answer", Json.str "r"), ("feedback", Json.str "f"),
         ("mark", Json.num 1)]])] _
      [[("answer", Json.str "r"), ("feedback", Json.str "f"), ("mark", Json.num 1)]]
      [("answer", Json.str "r"), ("feedback", Json.str "f"), ("mark", Json.num 1),
       ("id", Json.num 0)]
      [] (Json.num 1) (Json.str "f") (Json.num 0)
      rfl rfl rfl (by simp) rfl rfl rfl rfl).1 1 rfl,
   (c4_mark_override.1 evStr (Json.str "r") (Json.str "a")
      [("cases", Json.arr [Json.obj [("answer", Json.str "r"), ("feedback", Json.str "f"),
         ("mark", Json.str "yes")]])] _
      [[("answer", Json.str "r"), ("feedback", Json.str "f"), ("mark", Json.str "yes")]]
      [("answer", Json.str "r"), ("feedback", Json.str "f"), ("mark", Json.str "yes"),
       ("id", Json.num 0)]
      [] (Json.str "yes") (Json.str "f") (Json.num 0)
      rfl rfl rfl (by simp) rfl rfl rfl rfl).2 _ rfl,
   (c4_mark_override.2 evStr (Json.str "r") (Json.str "r")
      [("cases", Json.arr [Json.obj [("answer", Json.str "r"), ("feedback", Json.str "f"),
         ("mark", Json.num 0), ("params", Json.obj [])]])] _
      [[("answer", Json.str "r"), ("feedback", Json.str "f"), ("mark", Json.num 0),
        ("params", Json.obj [])]]
      [("answer", Json.str "r"), ("feedback", Json.str "f"), ("mark", Json.num 0),
       ("params", Json.obj []), ("id", Json.num 0)]
      [] (Json.num 0) (Json.str "f") (Json.num 0)
      rfl rfl (by simp) rfl (by simp) rfl rfl rfl).1 0 rfl,
   (c4_mark_override.2 evStr (Json.str "r") (Json.str "r")
      [("cases", Json.arr [Json.obj [("answer", Json.str "r"), ("feedback", Json.str "f"),
         ("mark", Json.str "yes"), ("params", Json.obj [])]])] _
      [[("answer", Json.str "r"), ("feedback", Json.str "f"), ("mark", Json.str "yes"),
        ("params", Json.obj [])]]
      [("answer", Json.str "r"), ("feedback", Json.str "f"), ("mark", Json.str "yes"),
       ("params", Json.obj []), ("id", Json.num 0)]
      [] (Json.str "yes") (Json.str "f") (Json.num 0)
      rfl rfl (by simp) rfl (by simp) rfl rfl rfl).2 _ rfl⟩
